import Mathlib

/-!
Verification development for the Gemini TTS studio tool.

Shallow embedding of the rate-limiting / usage-accounting subsystem
(`managers.py`, `data_manager.py`), the batch orchestrator and archive
builder (`app.py`), and the WAV container writer (`tts_engine.py`).

Modelling conventions:
* Python `float` epoch timestamps are modelled as `Int` (the claims about
  the time windows are purely order-theoretic — they compare `now - t`
  against the constants 60 and 86400 — so they do not depend on fractional
  precision; integers keep every statement kernel-evaluable).
* Python `dict`s are modelled as association lists with `List.lookup`
  (first-match semantics; dict keys are unique so this is faithful).
* Python `int` is modelled as `Int` (arbitrary precision in both).
* File-backed state (the usage ledger) is passed explicitly: a function
  that in Python reads the ledger file takes the loaded mapping as an
  argument, and a function that writes it returns the new mapping.
* The external TTS call is an oracle (`GenResult`): it can return success,
  return failure, or raise (with a message).
-/

/-- Usage ledger as loaded from `usage_log.json`:
model identifier -> ordered list of epoch timestamps. -/
abbrev Usage := List (String × List Int)

/-- The per-model limit store under the `model_limits` settings key:
model identifier -> (`requests_per_minute`?, `requests_per_day`?).
Each inner field is optional because the stored JSON object for a model
may lack either key (`data_manager.py` reads both with `.get(key, default)`). -/
abbrev LimitsMap := List (String × (Option Int × Option Int))

/-- Model of `DataManager.get_limits` (`data_manager.py` lines 140-150):
`settings.get("model_limits", {}).get(model_name, {})`, then
`.get("requests_per_minute", 10)` and `.get("requests_per_day", 50)`. -/
def get_limits (mls : LimitsMap) (model_name : String) : Int × Int :=
  let ml := (mls.lookup model_name).getD (none, none)
  (ml.1.getD 10, ml.2.getD 50)

/-- Count of `[t for t in timestamps if now - t < 60]` for a model
(`managers.py` line 60, and line 101 in `get_usage_stats`). -/
def count_last_60s (usage : Usage) (m : String) (now : Int) : Nat :=
  (((usage.lookup m).getD []).filter (fun t => now - t < 60)).length

/-- Count of `[t for t in timestamps if now - t < 86400]` for a model
(`managers.py` line 61, and line 102 in `get_usage_stats`). -/
def count_last_86400s (usage : Usage) (m : String) (now : Int) : Nat :=
  (((usage.lookup m).getD []).filter (fun t => now - t < 86400)).length

/-- Denial message for the per-minute ceiling (`managers.py` line 64). -/
def minute_msg (m : String) (lim : Int) : String :=
  "Rate limit exceeded for " ++ m ++ ": Max " ++ toString lim ++ " requests per minute."

/-- Denial message for the per-day ceiling (`managers.py` line 67). -/
def day_msg (m : String) (lim : Int) : String :=
  "Rate limit exceeded for " ++ m ++ ": Max " ++ toString lim ++ " requests per day."

/-- Model of `RateLimiter.check_limit` (`managers.py` lines 45-69).  The loaded
ledger is passed explicitly (the Python code calls `load_usage()` itself);
the model name is always passed explicitly (the `None` default resolves to
the active model before the body runs). -/
def check_limit (mls : LimitsMap) (usage : Usage) (m : String) (now : Int) :
    Bool × String :=
  let lm := get_limits mls m
  if lm.1 ≤ (count_last_60s usage m now : Int) then
    (false, minute_msg m lm.1)
  else if lm.2 ≤ (count_last_86400s usage m now : Int) then
    (false, day_msg m lm.2)
  else
    (true, "")

/-- Python dict assignment `all_usage[model_name] = timestamps`
(replace the entry in place if the key exists, else append). -/
def setKey : Usage → String → List Int → Usage
  | [], m, v => [(m, v)]
  | (k, w) :: rest, m, v =>
    if k == m then (m, v) :: rest else (k, w) :: setKey rest m v

/-- Model of `RateLimiter.log_request` (`managers.py` lines 71-89): append `now`
for the model, prune entries `now - t >= 86400`, store back. -/
def log_request (usage : Usage) (m : String) (now : Int) : Usage :=
  let ts := (usage.lookup m).getD []
  let ts2 := ts ++ [now]
  let ts3 := ts2.filter (fun t => now - t < 86400)
  setKey usage m ts3

/-- Model of `RateLimiter.get_usage_stats` (`managers.py` lines 91-107), returning
the `("used_min", "used_day")` pair. -/
def get_usage_stats (usage : Usage) (m : String) (now : Int) : Nat × Nat :=
  (count_last_60s usage m now, count_last_86400s usage m now)

/-- Raw content of `usage_log.json` as seen by `RateLimiter.load_usage`:
the file may be absent, unreadable/corrupt (`JSONDecodeError`/`IOError`),
a JSON list (legacy format), a JSON object, or some other JSON value. -/
inductive UsageFileContent where
  | absent : UsageFileContent
  | unreadable : UsageFileContent
  | jlist (ts : List Int) : UsageFileContent
  | jdict (entries : Usage) : UsageFileContent
  | other : UsageFileContent
deriving DecidableEq

/-- Model of `RateLimiter.load_usage` (`managers.py` lines 14-37): absent file,
unreadable file, and JSON that is neither list nor object all load as `{}`;
a legacy list is wrapped under the currently active model. -/
def load_usage (active_model : String) : UsageFileContent → Usage
  | .absent => []
  | .unreadable => []
  | .jlist ts => [(active_model, ts)]
  | .jdict entries => entries
  | .other => []

/-- Python `str.strip()`: remove leading and trailing whitespace.
(Implemented structurally over the character list so that every statement
below is kernel-evaluable; Lean's built-in `String.trim` is defined by
well-founded recursion, which the kernel cannot unfold.) -/
def pyStrip (s : String) : String :=
  ⟨((s.data.dropWhile Char.isWhitespace).reverse.dropWhile Char.isWhitespace).reverse⟩

/-- Helper for `pySplit`: split a character list on a separator character,
accumulating the current field in reverse. -/
def splitCharAux (sep : Char) : List Char → List Char → List (List Char)
  | [], acc => [acc.reverse]
  | c :: cs, acc =>
    if c == sep then acc.reverse :: splitCharAux sep cs []
    else splitCharAux sep cs (c :: acc)

/-- Python `str.split(sep)` for a one-character separator (the source only
splits on `'\n'`, `'|'`, `';'`, `'='` and `'L'`): split at every
occurrence, keeping empty fields; the empty string yields `[""]`. -/
def pySplit (sep : Char) (s : String) : List String :=
  (splitCharAux sep s.data []).map (fun l => ⟨l⟩)

/-- A character configuration from the settings store:
`characters[name] = {"voice": ..., "style": ...}`. -/
structure CharConfig where
  voice : String
  style : String
deriving DecidableEq

/-- The character map exposed by `DataManager.get_characters`. -/
abbrev CharMap := List (String × CharConfig)

/-- A parsed script task (`app.py` lines 259-266).  The Python dict stores
`"config": characters[char_name]`; since the character map is not mutated
during a batch, the `voice`/`style` fields read from the config later are
flattened into the task here. -/
structure BatchTask where
  char_name : String
  text : String
  filename : String
  voice : String
  style : String
  versions : List String
  selected_index : Nat
deriving DecidableEq

/-- Outcome of processing one script line in the parse loop of
`initialize_batch_generation` (`app.py` lines 244-266). -/
inductive LineResult where
  | blank : LineResult
  | task (t : BatchTask) : LineResult
  | err (msg : String) : LineResult
deriving DecidableEq

/-- Validation message for a line with a field count other than 3
(`app.py` line 250). -/
def format_err_msg (lineNo : Nat) : String :=
  "Line " ++ toString lineNo ++ ": Invalid format. Expected 3 parts separated by \x27|\x27."

/-- Validation message for an unknown character (`app.py` line 256). -/
def unknown_char_msg (lineNo : Nat) (char_name : String) : String :=
  "Line " ++ toString lineNo ++ ": Character \x27" ++ char_name ++ "\x27 not found in settings."

/-- Body of the parse loop for line index `i` (0-based index into the
lines of the stripped script text), `app.py` lines 244-266: skip blank
lines; split on the pipe character and trim each field; require exactly
3 fields; require a known character; otherwise build the task with empty
`versions` and `selected_index = 0`. -/
def parse_line (characters : CharMap) (i : Nat) (line : String) : LineResult :=
  if pyStrip line = "" then .blank
  else
    match (pySplit '|' line).map pyStrip with
    | [char_name, text, filename] =>
      match characters.lookup char_name with
      | some cfg => .task ⟨char_name, text, filename, cfg.voice, cfg.style, [], 0⟩
      | none => .err (unknown_char_msg (i + 1) char_name)
    | _ => .err (format_err_msg (i + 1))

/-- The parse-and-validate phase of `initialize_batch_generation`
(`app.py` lines 234-266): `lines = script_text.strip().split('\n')`,
then one `parse_line` per enumerated line, collecting the parsed tasks
and the validation errors in line order. -/
def parseScript (characters : CharMap) (script_text : String) :
    List BatchTask × List String :=
  let lines := pySplit '\n' (pyStrip script_text)
  let results := lines.enum.map (fun p => parse_line characters p.1 p.2)
  (results.filterMap (fun r => match r with | .task t => some t | _ => none),
   results.filterMap (fun r => match r with | .err e => some e | _ => none))

/-- Result of one call to the external TTS engine (`generate_speech`):
it returns `True`, returns a falsy value, or raises an exception whose
string rendering is `e`. -/
inductive GenResult where
  | success : GenResult
  | failure : GenResult
  | raised (e : String) : GenResult
deriving DecidableEq

/-- Mutable state threaded through the generation loop of
`initialize_batch_generation` (`app.py` lines 285-330): the persisted
usage ledger, the `successful_tasks` list, the `st.error` messages
emitted so far, and the indices of tasks for which `generate_speech`
was actually invoked. -/
structure BatchState where
  usage : Usage
  successful : List BatchTask
  errors : List String
  attempted : List Nat
deriving DecidableEq

/-- One iteration of the generation loop (`app.py` lines 290-330) for task
index `idx`.  Returns `(continue?, new state)`; `continue? = false` models
the `break` taken when the rate limiter denies.  On success the task's
version list gains the `_v1.wav` path, the ledger is written via
`log_request`, and the task joins `successful_tasks`; a falsy return or a
raised exception is caught per task and only reports an error.  (The
history-cache side effect of `HistoryManager.add_entry` is not modelled;
no claim depends on it.) -/
def stepTask (mls : LimitsMap) (m : String) (temp_dir : String) (now : Int)
    (idx : Nat) (task : BatchTask) (g : GenResult) (s : BatchState) :
    Bool × BatchState :=
  let c := check_limit mls s.usage m now
  if c.1 then
    let output_file := temp_dir ++ "/" ++ task.filename ++ "_v1.wav"
    match g with
    | .success =>
      let t := { task with versions := task.versions ++ [output_file] }
      (true, { s with usage := log_request s.usage m now,
                      successful := s.successful ++ [t],
                      attempted := s.attempted ++ [idx] })
    | .failure =>
      (true, { s with errors := s.errors ++
                        ["Failed to generate audio for " ++ task.filename],
                      attempted := s.attempted ++ [idx] })
    | .raised e =>
      (true, { s with errors := s.errors ++
                        ["Error generating " ++ task.filename ++ ": " ++ e],
                      attempted := s.attempted ++ [idx] })
  else
    (false, { s with errors := s.errors ++
                       ["Stopped at " ++ task.filename ++ ": " ++ c.2] })

/-- The generation loop of `initialize_batch_generation` over the ordered
validated tasks (`app.py` lines 290-330).  `gen` is the external-call
oracle and `nowAt` the clock, both indexed by loop position. -/
def runBatch (mls : LimitsMap) (m : String) (temp_dir : String)
    (gen : Nat → GenResult) (nowAt : Nat → Int) :
    Nat → List BatchTask → BatchState → BatchState
  | _, [], s => s
  | idx, t :: rest, s =>
    match stepTask mls m temp_dir (nowAt idx) idx t (gen idx) s with
    | (true, s2) => runBatch mls m temp_dir gen nowAt (idx + 1) rest s2
    | (false, s2) => s2

/-- Overall outcome of `initialize_batch_generation` (`app.py`
lines 227-336): missing API key, empty line list, validation errors
(generation never starts), or a completed generation loop. -/
inductive InitOutcome where
  | missingApiKey : InitOutcome
  | emptyScript : InitOutcome
  | validationErrors (errs : List String) : InitOutcome
  | ran (final : BatchState) : InitOutcome
deriving DecidableEq

/-- Model of `initialize_batch_generation` (`app.py` lines 227-336).  The settings
reads (`api_key`, `characters`, limits, active model) are passed in; the
temp-directory creation and progress bar are not modelled. -/
def initialize_batch_generation (api_key : String) (characters : CharMap)
    (mls : LimitsMap) (m : String) (temp_dir : String)
    (gen : Nat → GenResult) (nowAt : Nat → Int) (usage0 : Usage)
    (script_text : String) : InitOutcome :=
  if api_key = "" then .missingApiKey
  else
    let lines := pySplit '\n' (pyStrip script_text)
    if lines.isEmpty then .emptyScript
    else
      let pr := parseScript characters script_text
      if pr.2.isEmpty then
        .ran (runBatch mls m temp_dir gen nowAt 0 pr.1 ⟨usage0, [], [], []⟩)
      else
        .validationErrors pr.2

/-- Result of `regenerate_task_audio` (`app.py` lines 415-458): the task
(possibly with a new version appended), the usage ledger, and the
`st.error` messages emitted. -/
structure RegenResult where
  task : BatchTask
  usage : Usage
  errors : List String
deriving DecidableEq

/-- Model of `regenerate_task_audio` (`app.py` lines 415-458).  A missing temp
directory (`None` in the session state) is modelled as the empty string,
matching the falsiness test `if not api_key or not temp_dir`. -/
def regenerate_task_audio (mls : LimitsMap) (m : String) (api_key : String)
    (temp_dir : String) (now : Int) (g : GenResult) (task : BatchTask)
    (usage : Usage) : RegenResult :=
  if api_key = "" || temp_dir = "" then
    ⟨task, usage, ["Missing API Key or Temp Directory."]⟩
  else
    let c := check_limit mls usage m now
    if c.1 then
      let version_count := task.versions.length + 1
      let output_file := temp_dir ++ "/" ++ task.filename ++ "_v" ++
        toString version_count ++ ".wav"
      match g with
      | .success =>
        let t := { task with versions := task.versions ++ [output_file] }
        ⟨{ t with selected_index := t.versions.length - 1 },
         log_request usage m now, []⟩
      | .failure => ⟨task, usage, ["Failed to regenerate " ++ task.filename]⟩
      | .raised e => ⟨task, usage, ["Error regenerating: " ++ e]⟩
    else
      ⟨task, usage, ["Cannot regenerate: " ++ c.2]⟩

/-- On-disk files visible to the archive builder: path -> byte content. -/
abbrev FileMap := List (String × List Nat)

/-- The entry-collection loop of `create_final_zip` (`app.py`
lines 468-475).  `task["versions"][task["selected_index"]]` raises
`IndexError` when the index is out of range (in particular for a task
with zero versions); the surrounding `except Exception` then aborts the
build, modelled by `none`.  A selected file absent from disk
(`os.path.exists` false) is skipped. -/
def zipEntries (files : FileMap) : List BatchTask → Option (List (String × List Nat))
  | [] => some []
  | t :: rest =>
    match t.versions[t.selected_index]? with
    | none => none
    | some selected_file =>
      match files.lookup selected_file with
      | some content =>
        (zipEntries files rest).map (fun es => (t.filename ++ ".wav", content) :: es)
      | none => zipEntries files rest

/-- Model of `create_final_zip` (`app.py` lines 460-479): `None`/empty or
non-existent temp directory fails; otherwise the archive is the path
`temp_dir/voiceovers_final.zip` together with its entries, one per task
whose selected version file exists, named `{filename}.wav`. -/
def create_final_zip (results : List BatchTask) (temp_dir : String)
    (dirs : List String) (files : FileMap) :
    Option (String × List (String × List Nat)) :=
  if temp_dir = "" || !(dirs.contains temp_dir) then none
  else
    match zipEntries files results with
    | some entries => some (temp_dir ++ "/voiceovers_final.zip", entries)
    | none => none

/-- Digits-to-value accumulator for `pyIntParse`. -/
def digitsVal : List Char → Nat → Nat
  | [], acc => acc
  | c :: cs, acc => digitsVal cs (acc * 10 + (c.toNat - 48))

/-- Python `int(s)` on a decimal string, as `Option`: strip whitespace,
allow one leading sign, then require a nonempty run of ASCII digits;
anything else raises `ValueError`, modelled as `none`.  (Python also
accepts underscores between digits and non-ASCII decimal digits; no
claim involves such inputs.) -/
def pyIntParse (s : String) : Option Int :=
  let t := (pyStrip s).data
  let (sign, digits) :=
    match t with
    | '-' :: rest => ((-1 : Int), rest)
    | '+' :: rest => ((1 : Int), rest)
    | _ => ((1 : Int), t)
  if digits ≠ [] ∧ digits.all Char.isDigit then
    some (sign * (digitsVal digits 0 : Int))
  else none

/-- Python `str.lower()` (ASCII case folding suffices here). -/
def pyLower (s : String) : String := ⟨s.data.map Char.toLower⟩

/-- Python `str.startswith(p)`, structurally over characters. -/
def strStarts (p : List Char) : List Char → Bool
  | [] => p.isEmpty
  | c :: cs =>
    match p with
    | [] => true
    | q :: qs => q == c && strStarts qs cs

/-- Python `s[n:]` over characters. -/
def pyDrop (s : String) (n : Nat) : String := ⟨s.data.drop n⟩

/-- Model of `parse_audio_mime_type` (`tts_engine.py` lines 8-40): fold over the
`';'`-separated parts with state `(bits_per_sample, rate)` starting at
`(16, 24000)`.  A stripped part whose lowercasing starts with `"rate="`
sets the rate from the text after the first `'='` (which is exactly
`param[5:]`, since the first five characters are `rate=` in some case and
contain no `'='`); otherwise a part starting with `"audio/L"` sets the
bits per sample from the text after the first `'L'` (exactly `param[7:]`:
`"audio/"` contains no capital `'L'`).  A `ValueError` from `int()` keeps
the default. -/
def parse_audio_mime_type (mime_type : String) : Int × Int :=
  (pySplit ';' mime_type).foldl
    (fun acc p =>
      let param := pyStrip p
      if strStarts "rate=".data (pyLower param).data then
        match pyIntParse (pyDrop param 5) with
        | some r => (acc.1, r)
        | none => acc
      else if strStarts "audio/L".data param.data then
        match pyIntParse (pyDrop param 7) with
        | some b => (b, acc.2)
        | none => acc
      else acc)
    (16, 24000)

/-- Little-endian 2-byte encoding of a (range-checked) value, as used by
`struct.pack`'s `H` code. -/
def u16le (n : Int) : List Nat :=
  [n.toNat % 256, n.toNat / 256 % 256]

/-- Little-endian 4-byte encoding of a (range-checked) value, as used by
`struct.pack`'s `I` code. -/
def u32le (n : Int) : List Nat :=
  [n.toNat % 256, n.toNat / 256 % 256, n.toNat / 65536 % 256,
   n.toNat / 16777216 % 256]

/-- Model of the `struct.pack` `H` code: raises `struct.error` outside `[0, 65535]`. -/
def packU16 (n : Int) : Option (List Nat) :=
  if 0 ≤ n ∧ n ≤ 65535 then some (u16le n) else none

/-- Model of the `struct.pack` `I` code: raises `struct.error` outside `[0, 2^32-1]`. -/
def packU32 (n : Int) : Option (List Nat) :=
  if 0 ≤ n ∧ n ≤ 4294967295 then some (u32le n) else none

/-- Model of `convert_to_wav` (`tts_engine.py` lines 42-80): compute the header
fields from the parsed MIME parameters and pack
`"<4sI4s4sIHHIIHH4sI"` followed by the raw audio bytes.  `struct.pack`
validates every numeric field against its format code and raises
`struct.error` (uncaught) if any is out of range, modelled as `none`.
The byte lists spell `RIFF`, `WAVE`, `"fmt "` and `data`; the constant
fields 16 (fmt subchunk size), 1 (PCM audio format) and 1 (channel
count) are always in range. -/
def convert_to_wav (audio_data : List Nat) (mime_type : String) :
    Option (List Nat) :=
  let ps := parse_audio_mime_type mime_type
  let bits_per_sample := ps.1
  let sample_rate := ps.2
  let num_channels : Int := 1
  let data_size : Int := (audio_data.length : Int)
  let bytes_per_sample := Int.fdiv bits_per_sample 8
  let block_align := num_channels * bytes_per_sample
  let byte_rate := sample_rate * block_align
  let chunk_size := 36 + data_size
  match packU32 chunk_size, packU16 num_channels, packU32 sample_rate,
        packU32 byte_rate, packU16 block_align, packU16 bits_per_sample,
        packU32 data_size with
  | some bChunk, some bCh, some bRate, some bByteRate, some bAlign,
    some bBits, some bSize =>
    some ([82, 73, 70, 70] ++ bChunk ++ [87, 65, 86, 69] ++
      [102, 109, 116, 32] ++ u32le 16 ++ u16le 1 ++ bCh ++ bRate ++
      bByteRate ++ bAlign ++ bBits ++ [100, 97, 116, 97] ++ bSize ++
      audio_data)
  | _, _, _, _, _, _, _ => none

/-- Iterated (`k` successive) calls to `RateLimiter.log_request` for model `m`, all
at the same instant `now` ("no elapsed time"). -/
def logIterate : Nat → Usage → String → Int → Usage
  | 0, u, _, _ => u
  | k + 1, u, m, now => log_request (logIterate k u m now) m now

-- Sanity examples (concrete evaluation of the embedding).
example : check_limit [("m", (some 1, some 50))] [("m", [10, 10])] "m" 10 =
    (false, "Rate limit exceeded for m: Max 1 requests per minute.") := by decide

example : get_usage_stats (log_request [] "m" 5) "m" 5 = (1, 1) := by decide

example : parseScript [("Hero", ⟨"Puck", ""⟩)] "Hero | Hi | hero_01" =
    ([⟨"Hero", "Hi", "hero_01", "Puck", "", [], 0⟩], []) := by decide

example : parseScript [("Hero", ⟨"Puck", ""⟩)] "\nHero | Hi" =
    ([], ["Line 1: Invalid format. Expected 3 parts separated by \x27|\x27."]) := by
  decide

example : create_final_zip [⟨"Hero", "Hi", "h1", "Puck", "", [], 0⟩] "d" ["d"] [] =
    none := by decide

example : parse_audio_mime_type "audio/L16;rate=24000" = (16, 24000) := by decide

example : parse_audio_mime_type "audio/pcm" = (16, 24000) := by decide

example : parse_audio_mime_type "audio/L8;RATE=8000" = (8, 8000) := by decide

example : (convert_to_wav [1, 2, 3] "audio/L16;rate=24000").map List.length =
    some 47 := by decide

example : convert_to_wav [] "audio/L70000" = none := by decide

/-! ### Helper lemmas -/

theorem check_limit_false_iff (mls : LimitsMap) (usage : Usage) (m : String)
    (now : Int) :
    (check_limit mls usage m now).1 = false ↔
      ((get_limits mls m).1 ≤ (count_last_60s usage m now : Int) ∨
       (get_limits mls m).2 ≤ (count_last_86400s usage m now : Int)) := by
  unfold check_limit
  by_cases h1 : (get_limits mls m).1 ≤ (count_last_60s usage m now : Int) <;>
    by_cases h2 : (get_limits mls m).2 ≤ (count_last_86400s usage m now : Int) <;>
    simp [h1, h2]

theorem check_limit_minute_reason (mls : LimitsMap) (usage : Usage) (m : String)
    (now : Int)
    (h1 : (get_limits mls m).1 ≤ (count_last_60s usage m now : Int)) :
    (check_limit mls usage m now).2 = minute_msg m (get_limits mls m).1 := by
  unfold check_limit
  simp [h1]

theorem check_limit_day_reason (mls : LimitsMap) (usage : Usage) (m : String)
    (now : Int)
    (h1 : ¬ (get_limits mls m).1 ≤ (count_last_60s usage m now : Int))
    (h2 : (get_limits mls m).2 ≤ (count_last_86400s usage m now : Int)) :
    (check_limit mls usage m now).2 = day_msg m (get_limits mls m).2 := by
  unfold check_limit
  simp [h1, h2]

theorem check_limit_allowed_reason (mls : LimitsMap) (usage : Usage)
    (m : String) (now : Int)
    (h : (check_limit mls usage m now).1 = true) :
    (check_limit mls usage m now).2 = "" := by
  unfold check_limit at h ⊢
  by_cases h1 : (get_limits mls m).1 ≤ (count_last_60s usage m now : Int) <;>
    by_cases h2 : (get_limits mls m).2 ≤ (count_last_86400s usage m now : Int) <;>
    simp [h1, h2] at h ⊢

/-! ### Claims -/

/-- C1: for every model identifier `m`, the rate-limit check denies exactly
when the count of recorded timestamps within the last 60 seconds reaches
the configured per-minute limit OR the count within the last 86400 seconds
reaches the per-day limit; the minute condition is evaluated first and
short-circuits the day condition, so when both limits are reached the
denial reason is the minute-scoped message; when allowed the reason is
empty. -/
theorem c1_check_limit_denies_iff (mls : LimitsMap) (usage : Usage)
    (m : String) (now : Int) :
    ((check_limit mls usage m now).1 = false ↔
      ((get_limits mls m).1 ≤ (count_last_60s usage m now : Int) ∨
       (get_limits mls m).2 ≤ (count_last_86400s usage m now : Int)))
    ∧ ((get_limits mls m).1 ≤ (count_last_60s usage m now : Int) →
        (check_limit mls usage m now).2 = minute_msg m (get_limits mls m).1)
    ∧ (¬ (get_limits mls m).1 ≤ (count_last_60s usage m now : Int) →
        (get_limits mls m).2 ≤ (count_last_86400s usage m now : Int) →
        (check_limit mls usage m now).2 = day_msg m (get_limits mls m).2)
    ∧ ((check_limit mls usage m now).1 = true →
        (check_limit mls usage m now).2 = "") :=
  ⟨check_limit_false_iff mls usage m now,
   fun h1 => check_limit_minute_reason mls usage m now h1,
   fun h1 h2 => check_limit_day_reason mls usage m now h1 h2,
   fun h => check_limit_allowed_reason mls usage m now h⟩

/-- C1 witness: with `limit_per_minute = 1` and two logged timestamps in
the same second, a check is denied with the minute-scoped reason even
though the day limit (50) is far from reached. -/
theorem c1_check_limit_denies_iff_witness :
    (check_limit [("m", (some 1, some 50))] [("m", [10, 10])] "m" 10).1 = false
    ∧ (check_limit [("m", (some 1, some 50))] [("m", [10, 10])] "m" 10).2 =
        "Rate limit exceeded for m: Max 1 requests per minute." := by
  have h := c1_check_limit_denies_iff [("m", (some 1, some 50))]
    [("m", [10, 10])] "m" 10
  exact ⟨h.1.mpr (Or.inl (by decide)), (h.2.1 (by decide)).trans (by decide)⟩

/-- C9: if the usage ledger file is absent, unreadable, or contains JSON
that is neither a list nor an object, loading returns the empty mapping,
every model's minute/day counts read as zero, and (with positive
configured limits, as the settings UI and defaults guarantee) the
rate-limit check allows the next request. -/
theorem c9_corrupt_ledger_resets (active : String) (c : UsageFileContent)
    (mls : LimitsMap) (m : String) (now : Int)
    (hc : c = .absent ∨ c = .unreadable ∨ c = .other) :
    load_usage active c = []
    ∧ get_usage_stats (load_usage active c) m now = (0, 0)
    ∧ (0 < (get_limits mls m).1 → 0 < (get_limits mls m).2 →
        (check_limit mls (load_usage active c) m now).1 = true) := by
  have hload : load_usage active c = [] := by
    rcases hc with h | h | h <;> (subst h; rfl)
  refine ⟨hload, ?_, ?_⟩
  · rw [hload]; rfl
  · intro h1 h2
    rw [hload]
    unfold check_limit
    have hc60 : (count_last_60s [] m now : Int) = 0 := rfl
    have hc86 : (count_last_86400s [] m now : Int) = 0 := rfl
    rw [if_neg (by omega), if_neg (by omega)]

/-- C9 witness: an absent ledger file loads as the empty mapping, reads
counts `(0, 0)`, and the check (with the default limits 10/50 of an
unconfigured model) allows. -/
theorem c9_corrupt_ledger_resets_witness :
    load_usage "gemini-2.5-pro-preview-tts" .absent = []
    ∧ get_usage_stats (load_usage "gemini-2.5-pro-preview-tts" .absent) "m" 0 =
        (0, 0)
    ∧ (check_limit [] (load_usage "gemini-2.5-pro-preview-tts" .absent) "m" 0).1 =
        true := by
  have h := c9_corrupt_ledger_resets "gemini-2.5-pro-preview-tts" .absent
    [] "m" 0 (Or.inl rfl)
  exact ⟨h.1, h.2.1, h.2.2 (by decide) (by decide)⟩

/-- C10: a model identifier with no entry in the per-model limit store
gets the fixed defaults `(10, 50)`, and the rate-limit check for such a
model denies exactly when the minute count reaches 10 or the day count
reaches 50 — it neither fails nor treats the model as unlimited. -/
theorem c10_default_limits (mls : LimitsMap) (m : String) (usage : Usage)
    (now : Int) (h : mls.lookup m = none) :
    get_limits mls m = (10, 50)
    ∧ ((check_limit mls usage m now).1 = false ↔
        (10 ≤ (count_last_60s usage m now : Int) ∨
         50 ≤ (count_last_86400s usage m now : Int))) := by
  have hg : get_limits mls m = (10, 50) := by
    unfold get_limits
    rw [h]
    rfl
  refine ⟨hg, ?_⟩
  have hi := check_limit_false_iff mls usage m now
  rw [hg] at hi
  exact hi

/-- C10 witness: a completely empty limit store gives `(10, 50)` for an
arbitrary model, and the check denies once 10 timestamps sit in the
minute window. -/
theorem c10_default_limits_witness :
    get_limits [] "never-registered" = (10, 50)
    ∧ (check_limit [] [("never-registered", [1, 1, 1, 1, 1, 1, 1, 1, 1, 1])]
        "never-registered" 1).1 = false := by
  have h := c10_default_limits []
    "never-registered" [("never-registered", [1, 1, 1, 1, 1, 1, 1, 1, 1, 1])] 1 rfl
  exact ⟨h.1, h.2.mpr (Or.inl (by decide))⟩

theorem lookup_setKey_self (u : Usage) (m : String) (v : List Int) :
    (setKey u m v).lookup m = some v := by
  induction u with
  | nil => simp [setKey, List.lookup]
  | cons p rest ih =>
    obtain ⟨k, w⟩ := p
    by_cases hk : k = m
    · subst hk
      simp [setKey, List.lookup]
    · have hb : (k == m) = false := beq_eq_false_iff_ne.mpr hk
      have hb2 : (m == k) = false := beq_eq_false_iff_ne.mpr (Ne.symm hk)
      simp [setKey, hb, List.lookup, hb2, ih]

theorem filter_sub_self (n : Nat) (now : Int) (c : Int) (hc : 0 < c) :
    (List.replicate n now).filter (fun t => now - t < c) = List.replicate n now := by
  induction n with
  | zero => rfl
  | succ k ih => simp [List.replicate_succ, List.filter_cons, hc, ih]

theorem logIterate_lookup (u : Usage) (m : String) (now : Int)
    (h : (u.lookup m).getD [] = []) (k : Nat) :
    ((logIterate k u m now).lookup m).getD [] = List.replicate k now := by
  induction k with
  | zero => simpa [logIterate] using h
  | succ k ih =>
    show ((log_request (logIterate k u m now) m now).lookup m).getD [] = _
    unfold log_request
    rw [lookup_setKey_self]
    simp only [Option.getD_some]
    rw [ih, ← List.replicate_succ']
    exact filter_sub_self (k + 1) now 86400 (by omega)

/-- C6: (a) after `k` successive `log_request` calls for a model with no
stored timestamps, all at the same instant, the usage stats read back as
`(k, k)`; (b) a stored timestamp at least 86400 seconds old (e.g. 25
hours = 90000 s) contributes nothing to either window count, whether or
not it has been pruned from storage. -/
theorem c6_log_then_counts (u : Usage) (m : String) (now : Int) (k : Nat)
    (h : (u.lookup m).getD [] = []) :
    get_usage_stats (logIterate k u m now) m now = (k, k)
    ∧ (∀ (usage2 : Usage) (m2 : String) (pre post : List Int) (t0 : Int),
        usage2.lookup m2 = some (pre ++ t0 :: post) →
        86400 ≤ now - t0 →
        get_usage_stats usage2 m2 now =
          get_usage_stats [(m2, pre ++ post)] m2 now) := by
  constructor
  · unfold get_usage_stats count_last_60s count_last_86400s
    rw [logIterate_lookup u m now h k]
    rw [filter_sub_self k now 60 (by omega),
        filter_sub_self k now 86400 (by omega)]
    simp
  · intro usage2 m2 pre post t0 hl ht
    have l2 : (([(m2, pre ++ post)] : Usage).lookup m2) = some (pre ++ post) := by
      simp [List.lookup]
    unfold get_usage_stats count_last_60s count_last_86400s
    rw [hl, l2]
    simp only [Option.getD_some]
    have h60 : ¬ (now - t0 < 60) := by omega
    have h86 : ¬ (now - t0 < 86400) := by omega
    simp [List.filter_append, List.filter_cons, h60, h86]

/-- C6 witness: three immediate `log_request` calls read back `(3, 3)`;
a timestamp recorded 25 hours (90000 s) before `now` is not counted even
while still stored. -/
theorem c6_log_then_counts_witness :
    get_usage_stats (logIterate 3 [] "m" 100000) "m" 100000 = (3, 3)
    ∧ get_usage_stats [("m", [100000, 10000])] "m" 100000 =
        get_usage_stats [("m", [100000])] "m" 100000 := by
  have h := c6_log_then_counts [] "m" 100000 3 rfl
  exact ⟨h.1, h.2 [("m", [100000, 10000])] "m" [100000] [] 10000 (by decide)
    (by decide)⟩

/-- C2: the limit check is a read-only predicate and quota is consumed
only by the explicit log call made after a confirmed success.  In the
batch loop step: a denied check only appends the abort message (usage
unchanged); an external call that returns failure or raises leaves the
usage ledger unchanged; only a confirmed success writes the ledger, via
`log_request`.  The same holds for the regeneration path. -/
theorem c2_check_is_readonly_log_on_success (mls : LimitsMap)
    (m temp_dir api_key : String) (now : Int) (idx : Nat) (task : BatchTask)
    (s : BatchState) (usage : Usage) (e : String) (g : GenResult) :
    ((stepTask mls m temp_dir now idx task GenResult.failure s).2.usage = s.usage)
    ∧ ((stepTask mls m temp_dir now idx task (GenResult.raised e) s).2.usage = s.usage)
    ∧ ((check_limit mls s.usage m now).1 = false →
        (stepTask mls m temp_dir now idx task g s).2.usage = s.usage)
    ∧ ((check_limit mls s.usage m now).1 = true →
        (stepTask mls m temp_dir now idx task GenResult.success s).2.usage =
          log_request s.usage m now)
    ∧ ((regenerate_task_audio mls m api_key temp_dir now GenResult.failure
          task usage).usage = usage)
    ∧ ((regenerate_task_audio mls m api_key temp_dir now (GenResult.raised e)
          task usage).usage = usage)
    ∧ ((check_limit mls usage m now).1 = true →
        api_key ≠ "" → temp_dir ≠ "" →
        (regenerate_task_audio mls m api_key temp_dir now GenResult.success
          task usage).usage = log_request usage m now) := by
  refine ⟨?_, ?_, ?_, ?_, ?_, ?_, ?_⟩
  · unfold stepTask
    by_cases hc : (check_limit mls s.usage m now).1 = true <;> simp [hc]
  · unfold stepTask
    by_cases hc : (check_limit mls s.usage m now).1 = true <;> simp [hc]
  · intro hc
    unfold stepTask
    simp [hc]
  · intro hc
    unfold stepTask
    simp [hc]
  · unfold regenerate_task_audio
    by_cases hk : (api_key = "" || temp_dir = "") = true
    · simp [hk]
    · by_cases hc : (check_limit mls usage m now).1 = true <;> simp [hk, hc]
  · unfold regenerate_task_audio
    by_cases hk : (api_key = "" || temp_dir = "") = true
    · simp [hk]
    · by_cases hc : (check_limit mls usage m now).1 = true <;> simp [hk, hc]
  · intro hc hk hd
    unfold regenerate_task_audio
    simp [hk, hd, hc]

/-- C2 witness: with a fresh ledger, an allowed check followed by a failed
external call leaves the ledger empty, while a success writes exactly the
`log_request` of the same instant. -/
theorem c2_check_is_readonly_log_on_success_witness :
    (stepTask [] "m" "d" 5 0 ⟨"H", "t", "f", "v", "s", [], 0⟩ GenResult.failure
      ⟨[], [], [], []⟩).2.usage = []
    ∧ (stepTask [] "m" "d" 5 0 ⟨"H", "t", "f", "v", "s", [], 0⟩ GenResult.success
      ⟨[], [], [], []⟩).2.usage = log_request [] "m" 5
    ∧ (regenerate_task_audio [] "m" "k" "d" 5 GenResult.success
        ⟨"H", "t", "f", "v", "s", ["d/f_v1.wav"], 0⟩ []).usage =
      log_request [] "m" 5 := by
  have h := c2_check_is_readonly_log_on_success [] "m" "d" "k" 5 0
    ⟨"H", "t", "f", "v", "s", [], 0⟩ ⟨[], [], [], []⟩ [] "e" GenResult.failure
  have h2 := c2_check_is_readonly_log_on_success [] "m" "d" "k" 5 0
    ⟨"H", "t", "f", "v", "s", ["d/f_v1.wav"], 0⟩ ⟨[], [], [], []⟩ [] "e"
    GenResult.success
  exact ⟨h.1, h.2.2.2.1 (by decide),
    h2.2.2.2.2.2.2 (by decide) (by decide) (by decide)⟩

/-- C3: if the rate-limit check denies at some task during batch
execution, the batch aborts immediately at that task: no generation is
attempted for it or for any later task (`attempted` unchanged), tasks
already succeeded in this batch remain in the successful set
(`successful` unchanged), the ledger is untouched, and the only new
output is the denial reason attributed to the offending task's filename. -/
theorem c3_denial_aborts_batch (mls : LimitsMap) (m temp_dir : String)
    (gen : Nat → GenResult) (nowAt : Nat → Int) (idx : Nat) (t : BatchTask)
    (rest : List BatchTask) (s : BatchState)
    (h : (check_limit mls s.usage m (nowAt idx)).1 = false) :
    runBatch mls m temp_dir gen nowAt idx (t :: rest) s =
      { s with errors := s.errors ++
          ["Stopped at " ++ t.filename ++ ": " ++
            (check_limit mls s.usage m (nowAt idx)).2] } := by
  unfold runBatch stepTask
  simp [h]

/-- C3 witness: with a per-minute limit of 0 the very first task is
denied; the run stops there, attempting nothing, succeeding nothing, and
reporting the minute-scoped reason against that task, while a later task
in the list is never reached. -/
theorem c3_denial_aborts_batch_witness :
    runBatch [("m", (some 0, some 50))] "m" "d" (fun _ => GenResult.success)
      (fun _ => 0) 0
      [⟨"H", "t1", "f1", "v", "s", [], 0⟩, ⟨"H", "t2", "f2", "v", "s", [], 0⟩]
      ⟨[], [], [], []⟩ =
      ⟨[], [], ["Stopped at f1: Rate limit exceeded for m: Max 0 requests per minute."],
       []⟩ := by
  have h := c3_denial_aborts_batch [("m", (some 0, some 50))] "m" "d"
    (fun _ => GenResult.success) (fun _ => 0) 0
    ⟨"H", "t1", "f1", "v", "s", [], 0⟩ [⟨"H", "t2", "f2", "v", "s", [], 0⟩]
    ⟨[], [], [], []⟩ (by decide)
  exact h.trans (by decide)

/-- C4: regenerating an already-succeeded task uses version number
`n = len(existing_versions) + 1` in the new output path; on success it
appends exactly that one path (removing none) and selects the newest
version; on failure or a raised exception the task — its version list
and selected index included — and the usage ledger are exactly as before
the attempt (no quota logged), with only an error message emitted. -/
theorem c4_regenerate_appends_or_leaves (mls : LimitsMap)
    (m api_key temp_dir : String) (now : Int) (task : BatchTask)
    (usage : Usage) (e : String)
    (hk : api_key ≠ "") (hd : temp_dir ≠ "")
    (hc : (check_limit mls usage m now).1 = true) :
    regenerate_task_audio mls m api_key temp_dir now GenResult.success task usage =
      ⟨{ task with
           versions := task.versions ++
             [temp_dir ++ "/" ++ task.filename ++ "_v" ++
               toString (task.versions.length + 1) ++ ".wav"],
           selected_index := task.versions.length },
        log_request usage m now, []⟩
    ∧ regenerate_task_audio mls m api_key temp_dir now GenResult.failure task usage =
        ⟨task, usage, ["Failed to regenerate " ++ task.filename]⟩
    ∧ regenerate_task_audio mls m api_key temp_dir now (GenResult.raised e) task usage =
        ⟨task, usage, ["Error regenerating: " ++ e]⟩ := by
  unfold regenerate_task_audio
  simp [hk, hd, hc]

/-- C4 witness: a task with 2 existing versions regenerates into
`_v3.wav`, keeps both prior versions, and selects index 2 (the newest);
the failing and raising calls leave the task untouched. -/
theorem c4_regenerate_appends_or_leaves_witness :
    regenerate_task_audio [] "m" "k" "d" 5 GenResult.success
      ⟨"H", "t", "f", "v", "s", ["d/f_v1.wav", "d/f_v2.wav"], 1⟩ [] =
      ⟨⟨"H", "t", "f", "v", "s", ["d/f_v1.wav", "d/f_v2.wav", "d/f_v3.wav"], 2⟩,
        log_request [] "m" 5, []⟩
    ∧ regenerate_task_audio [] "m" "k" "d" 5 GenResult.failure
      ⟨"H", "t", "f", "v", "s", ["d/f_v1.wav", "d/f_v2.wav"], 1⟩ [] =
      ⟨⟨"H", "t", "f", "v", "s", ["d/f_v1.wav", "d/f_v2.wav"], 1⟩, [],
        ["Failed to regenerate f"]⟩ := by
  have h := c4_regenerate_appends_or_leaves [] "m" "k" "d" 5
    ⟨"H", "t", "f", "v", "s", ["d/f_v1.wav", "d/f_v2.wav"], 1⟩ [] "e"
    (by decide) (by decide) (by decide)
  exact ⟨h.1.trans (by decide), h.2.1.trans (by decide)⟩

theorem splitCharAux_ne_nil (sep : Char) (l acc : List Char) :
    splitCharAux sep l acc ≠ [] := by
  induction l generalizing acc with
  | nil => simp [splitCharAux]
  | cons c cs ih =>
    unfold splitCharAux
    by_cases hc : (c == sep) = true <;> simp [hc, ih]

theorem pySplit_ne_nil (sep : Char) (s : String) : pySplit sep s ≠ [] := by
  unfold pySplit
  simp [splitCharAux_ne_nil]

/-- C5 counterexample: the parser numbers lines within
`script_text.strip()`, not within the raw input.  For the raw input
`"\nHero | Hi"` the malformed 2-field line is the input's line 2 (the
raw split is `["", "Hero | Hi"]`), yet the reported error cites line 1. -/
theorem c5_line_numbering_counterexample :
    parseScript [("Hero", ⟨"Puck", ""⟩)] "\nHero | Hi" =
      ([], ["Line 1: Invalid format. Expected 3 parts separated by \x27|\x27."])
    ∧ pySplit '\n' "\nHero | Hi" = ["", "Hero | Hi"] := by
  constructor
  · decide
  · decide

/-- C5 (amended): line numbers are 1-based positions within the
whitespace-stripped script text (leading blank lines of the raw input
shift the numbering).  With that numbering: blank lines are skipped; a
non-blank line with a field count other than 3 yields the format error
citing its line number; a 3-field line with an unknown character yields
the error citing the line number and the name; a 3-field line with a
known character yields exactly one task carrying the trimmed text and
base name; and when any validation error exists the batch outcome is the
full error list with zero generation attempts. -/
theorem c5_parse_validation (chars : CharMap) (i : Nat) (line : String)
    (c t f : String) (cfg : CharConfig) (api_key : String) (mls : LimitsMap)
    (m temp_dir : String) (gen : Nat → GenResult) (nowAt : Nat → Int)
    (usage0 : Usage) (script_text : String) :
    (pyStrip line = "" → parse_line chars i line = LineResult.blank)
    ∧ (pyStrip line ≠ "" →
        ((pySplit '|' line).map pyStrip).length ≠ 3 →
        parse_line chars i line = LineResult.err (format_err_msg (i + 1)))
    ∧ (pyStrip line ≠ "" →
        (pySplit '|' line).map pyStrip = [c, t, f] →
        chars.lookup c = none →
        parse_line chars i line = LineResult.err (unknown_char_msg (i + 1) c))
    ∧ (pyStrip line ≠ "" →
        (pySplit '|' line).map pyStrip = [c, t, f] →
        chars.lookup c = some cfg →
        parse_line chars i line =
          LineResult.task ⟨c, t, f, cfg.voice, cfg.style, [], 0⟩)
    ∧ (api_key ≠ "" →
        (parseScript chars script_text).2 ≠ [] →
        initialize_batch_generation api_key chars mls m temp_dir gen nowAt
          usage0 script_text =
          InitOutcome.validationErrors (parseScript chars script_text).2) := by
  refine ⟨?_, ?_, ?_, ?_, ?_⟩
  · intro hb
    unfold parse_line
    simp [hb]
  · intro hb hlen
    unfold parse_line
    rw [if_neg hb]
    rcases hp : (pySplit '|' line).map pyStrip with _ | ⟨a, _ | ⟨b, _ | ⟨d, _ | ⟨e, l⟩⟩⟩⟩ <;>
      first
        | rfl
        | (exfalso; rw [hp] at hlen; simp at hlen)
  · intro hb hp hl
    unfold parse_line
    rw [if_neg hb, hp]
    simp [hl]
  · intro hb hp hl
    unfold parse_line
    rw [if_neg hb, hp]
    simp [hl]
  · intro hk herr
    unfold initialize_batch_generation
    rw [if_neg hk]
    have hne : pySplit '\n' (pyStrip script_text) ≠ [] := pySplit_ne_nil _ _
    rw [if_neg (by simpa [List.isEmpty_iff] using hne)]
    rw [if_neg (by simpa [List.isEmpty_iff] using herr)]

/-- C5 (amended) witness: the spec's three parsing examples plus the
abort-before-generation behaviour on a script whose sole line is
malformed. -/
theorem c5_parse_validation_witness :
    parse_line [("Hero", ⟨"Puck", "st"⟩)] 0 "Hero | Hi | hero_01" =
      LineResult.task ⟨"Hero", "Hi", "hero_01", "Puck", "st", [], 0⟩
    ∧ parse_line [("Hero", ⟨"Puck", "st"⟩)] 0 "Hero | Hi" =
        LineResult.err "Line 1: Invalid format. Expected 3 parts separated by \x27|\x27."
    ∧ parse_line [("Hero", ⟨"Puck", "st"⟩)] 0 "Ghost | Boo | g1" =
        LineResult.err "Line 1: Character \x27Ghost\x27 not found in settings."
    ∧ parse_line [("Hero", ⟨"Puck", "st"⟩)] 2 "   " = LineResult.blank
    ∧ initialize_batch_generation "key" [("Hero", ⟨"Puck", "st"⟩)] [] "m" "d"
        (fun _ => GenResult.success) (fun _ => 0) [] "Hero | Hi" =
        InitOutcome.validationErrors
          ["Line 1: Invalid format. Expected 3 parts separated by \x27|\x27."] := by
  have h1 := c5_parse_validation [("Hero", ⟨"Puck", "st"⟩)] 0 "Hero | Hi | hero_01"
    "Hero" "Hi" "hero_01" ⟨"Puck", "st"⟩ "key" [] "m" "d"
    (fun _ => GenResult.success) (fun _ => 0) [] "Hero | Hi"
  have h2 := c5_parse_validation [("Hero", ⟨"Puck", "st"⟩)] 0 "Ghost | Boo | g1"
    "Ghost" "Boo" "g1" ⟨"Puck", "st"⟩ "key" [] "m" "d"
    (fun _ => GenResult.success) (fun _ => 0) [] "Hero | Hi"
  have h3 := c5_parse_validation [("Hero", ⟨"Puck", "st"⟩)] 2 "   "
    "x" "y" "z" ⟨"Puck", "st"⟩ "key" [] "m" "d"
    (fun _ => GenResult.success) (fun _ => 0) [] "Hero | Hi"
  have h4 := c5_parse_validation [("Hero", ⟨"Puck", "st"⟩)] 0 "Hero | Hi"
    "x" "y" "z" ⟨"Puck", "st"⟩ "key" [] "m" "d"
    (fun _ => GenResult.success) (fun _ => 0) [] "Hero | Hi"
  refine ⟨?_, ?_, ?_, ?_, ?_⟩
  · exact h1.2.2.2.1 (by decide) (by decide) (by decide)
  · exact (h4.2.1 (by decide) (by decide)).trans (by decide)
  · exact (h2.2.2.1 (by decide) (by decide) (by decide)).trans (by decide)
  · exact h3.1 (by decide)
  · exact (h1.2.2.2.2 (by decide) (by decide)).trans (by decide)

theorem zipEntries_of_in_range (files : FileMap) (results : List BatchTask)
    (h : ∀ t ∈ results, t.selected_index < t.versions.length) :
    zipEntries files results =
      some (results.filterMap (fun t =>
        (t.versions[t.selected_index]?).bind (fun sel =>
          (files.lookup sel).map (fun content =>
            (t.filename ++ ".wav", content))))) := by
  induction results with
  | nil => rfl
  | cons t rest ih =>
    have ht := h t (List.mem_cons_self t rest)
    have hrest := fun x hx => h x (List.mem_cons_of_mem t hx)
    have hsel : t.versions[t.selected_index]? =
        some t.versions[t.selected_index] := List.getElem?_eq_getElem ht
    unfold zipEntries
    cases hlk : List.lookup t.versions[t.selected_index] files with
    | some content => simp [hsel, hlk, ih hrest, List.filterMap_cons]
    | none => simp [hsel, hlk, ih hrest, List.filterMap_cons]

theorem zipEntries_of_out_of_range (files : FileMap) (results : List BatchTask)
    (t : BatchTask) (ht : t ∈ results)
    (hlen : t.versions.length ≤ t.selected_index) :
    zipEntries files results = none := by
  induction results with
  | nil => cases ht
  | cons hd rest ih =>
    unfold zipEntries
    rcases List.mem_cons.mp ht with rfl | hmem
    · rw [List.getElem?_eq_none hlen]
    · cases hget : hd.versions[hd.selected_index]? with
      | none => rfl
      | some sel =>
        cases hlk : List.lookup sel files with
        | some content => simp [hlk, ih hmem]
        | none => simp [hlk, ih hmem]

/-- C7 counterexample: a task with zero versions is not skipped — the
index access `task["versions"][task["selected_index"]]` raises, the
surrounding handler reports an error, and no archive is returned, even
though the temp directory exists and other files are present. -/
theorem c7_zero_version_counterexample :
    create_final_zip [⟨"Hero", "Hi", "h1", "Puck", "", [], 0⟩] "d" ["d"]
      [("d/other_v1.wav", [9])] = none := by
  decide

/-- C7 (amended): building the archive fails (returning no archive) when
the temp directory is missing, and also when some task's selected index
is out of range of its version list — in particular for any task with
zero versions.  When every task's selected index is in range, the archive
is `temp_dir/voiceovers_final.zip` with one entry per task whose selected
version file exists on disk (a task whose selected file is absent is
skipped without error), named with the task's base output name plus
`.wav` (not the versioned name), and containing the bytes of the file at
the task's currently selected version index. -/
theorem c7_archive_build :
    (∀ (results : List BatchTask) (dirs : List String) (files : FileMap),
        create_final_zip results "" dirs files = none)
    ∧ (∀ (results : List BatchTask) (temp_dir : String) (dirs : List String)
        (files : FileMap), dirs.contains temp_dir = false →
        create_final_zip results temp_dir dirs files = none)
    ∧ (∀ (results : List BatchTask) (temp_dir : String) (dirs : List String)
        (files : FileMap),
        temp_dir ≠ "" → dirs.contains temp_dir = true →
        (∀ t ∈ results, t.selected_index < t.versions.length) →
        create_final_zip results temp_dir dirs files =
          some (temp_dir ++ "/voiceovers_final.zip",
            results.filterMap (fun t =>
              (t.versions[t.selected_index]?).bind (fun sel =>
                (files.lookup sel).map (fun content =>
                  (t.filename ++ ".wav", content))))))
    ∧ (∀ (results : List BatchTask) (temp_dir : String) (dirs : List String)
        (files : FileMap) (t : BatchTask), t ∈ results →
        t.versions.length ≤ t.selected_index →
        create_final_zip results temp_dir dirs files = none) := by
  refine ⟨?_, ?_, ?_, ?_⟩
  · intro results dirs files
    simp [create_final_zip]
  · intro results temp_dir dirs files h
    unfold create_final_zip
    rw [if_pos (by rw [h]; simp)]
  · intro results temp_dir dirs files h1 h2 h3
    unfold create_final_zip
    rw [if_neg (by rw [h2]; simp [h1])]
    rw [zipEntries_of_in_range files results h3]
  · intro results temp_dir dirs files t ht hlen
    unfold create_final_zip
    by_cases hcond : (decide (temp_dir = "") || !dirs.contains temp_dir) = true
    · rw [if_pos hcond]
    · rw [if_neg hcond, zipEntries_of_out_of_range files results t ht hlen]

/-- C7 (amended) witness: a 3-version task with selected index 0 is
archived as `h1.wav` containing version 1's bytes, not the newest
version's; a sibling task whose selected file is missing on disk is
skipped without error. -/
theorem c7_archive_build_witness :
    create_final_zip
      [⟨"Hero", "Hi", "h1", "Puck", "",
         ["d/h1_v1.wav", "d/h1_v2.wav", "d/h1_v3.wav"], 0⟩,
       ⟨"Bob", "Yo", "b1", "Kore", "", ["d/b1_v1.wav"], 0⟩]
      "d" ["d"]
      [("d/h1_v1.wav", [1, 1]), ("d/h1_v2.wav", [2, 2]),
       ("d/h1_v3.wav", [3, 3])] =
      some ("d/voiceovers_final.zip", [("h1.wav", [1, 1])]) := by
  have h := c7_archive_build.2.2.1
    [⟨"Hero", "Hi", "h1", "Puck", "",
       ["d/h1_v1.wav", "d/h1_v2.wav", "d/h1_v3.wav"], 0⟩,
     ⟨"Bob", "Yo", "b1", "Kore", "", ["d/b1_v1.wav"], 0⟩]
    "d" ["d"]
    [("d/h1_v1.wav", [1, 1]), ("d/h1_v2.wav", [2, 2]), ("d/h1_v3.wav", [3, 3])]
    (by decide) (by decide) (by decide)
  exact h.trans (by decide)

/-- C8 counterexample: the container is not produced for every MIME
string.  `"audio/L70000"` parses to bits-per-sample 70000, which
overflows `struct.pack`'s 16-bit `H` field, so `convert_to_wav` raises
`struct.error` instead of returning a 44-byte-header container. -/
theorem c8_overflow_counterexample :
    convert_to_wav [] "audio/L70000" = none := by decide

/-- C8 (amended): for every raw audio byte string and MIME string whose
parsed parameters put all computed header fields within `struct.pack`'s
unsigned ranges (bits-per-sample and block align in `[0, 65535]`; sample
rate, byte rate in `[0, 2^32-1]`; data length at most `2^32-1-36`) — in
particular for the defaults and for `"audio/L16;rate=24000"` — the
produced WAV container is the 44-byte PCM header followed by the raw
bytes verbatim (total length `44 + L`): `RIFF` magic, chunk size
`36 + L`, `WAVE`, `fmt ` subchunk of size 16, audio format 1, channel
count 1, the parsed sample rate, byte rate = rate × block align, block
align = channels × (bits / 8), the parsed bits per sample, then a `data`
subchunk of size `L` holding the raw bytes; and the MIME string
`"audio/L16;rate=24000"` parses to rate 24000 and 16 bits per sample. -/
theorem c8_wav_container (audio_data : List Nat) (mime_type : String)
    (hb0 : 0 ≤ (parse_audio_mime_type mime_type).1)
    (hb1 : (parse_audio_mime_type mime_type).1 ≤ 65535)
    (hr0 : 0 ≤ (parse_audio_mime_type mime_type).2)
    (hr1 : (parse_audio_mime_type mime_type).2 ≤ 4294967295)
    (ha0 : 0 ≤ 1 * Int.fdiv (parse_audio_mime_type mime_type).1 8)
    (ha1 : 1 * Int.fdiv (parse_audio_mime_type mime_type).1 8 ≤ 65535)
    (hbr0 : 0 ≤ (parse_audio_mime_type mime_type).2 *
      (1 * Int.fdiv (parse_audio_mime_type mime_type).1 8))
    (hbr1 : (parse_audio_mime_type mime_type).2 *
      (1 * Int.fdiv (parse_audio_mime_type mime_type).1 8) ≤ 4294967295)
    (hlen : (audio_data.length : Int) ≤ 4294967259) :
    convert_to_wav audio_data mime_type =
      some ([82, 73, 70, 70] ++ u32le (36 + (audio_data.length : Int)) ++
        [87, 65, 86, 69] ++ [102, 109, 116, 32] ++ u32le 16 ++ u16le 1 ++
        u16le 1 ++ u32le (parse_audio_mime_type mime_type).2 ++
        u32le ((parse_audio_mime_type mime_type).2 *
          (1 * Int.fdiv (parse_audio_mime_type mime_type).1 8)) ++
        u16le (1 * Int.fdiv (parse_audio_mime_type mime_type).1 8) ++
        u16le (parse_audio_mime_type mime_type).1 ++ [100, 97, 116, 97] ++
        u32le (audio_data.length : Int) ++ audio_data)
    ∧ (convert_to_wav audio_data mime_type).map List.length =
        some (44 + audio_data.length)
    ∧ parse_audio_mime_type "audio/L16;rate=24000" = (16, 24000) := by
  have e1 : packU32 (36 + (audio_data.length : Int)) =
      some (u32le (36 + (audio_data.length : Int))) := by
    unfold packU32
    rw [if_pos]
    exact ⟨by positivity, by omega⟩
  have e2 : packU16 (1 : Int) = some (u16le 1) := by
    unfold packU16
    rw [if_pos]
    exact ⟨by norm_num, by norm_num⟩
  have e3 : packU32 (parse_audio_mime_type mime_type).2 =
      some (u32le (parse_audio_mime_type mime_type).2) := by
    unfold packU32
    rw [if_pos]
    exact ⟨hr0, hr1⟩
  have e4 : packU32 ((parse_audio_mime_type mime_type).2 *
      (1 * Int.fdiv (parse_audio_mime_type mime_type).1 8)) =
      some (u32le ((parse_audio_mime_type mime_type).2 *
        (1 * Int.fdiv (parse_audio_mime_type mime_type).1 8))) := by
    unfold packU32
    rw [if_pos]
    exact ⟨hbr0, hbr1⟩
  have e5 : packU16 (1 * Int.fdiv (parse_audio_mime_type mime_type).1 8) =
      some (u16le (1 * Int.fdiv (parse_audio_mime_type mime_type).1 8)) := by
    unfold packU16
    rw [if_pos]
    exact ⟨ha0, ha1⟩
  have e6 : packU16 (parse_audio_mime_type mime_type).1 =
      some (u16le (parse_audio_mime_type mime_type).1) := by
    unfold packU16
    rw [if_pos]
    exact ⟨hb0, hb1⟩
  have e7 : packU32 (audio_data.length : Int) =
      some (u32le (audio_data.length : Int)) := by
    unfold packU32
    rw [if_pos]
    exact ⟨by positivity, by omega⟩
  have hmain : convert_to_wav audio_data mime_type =
      some ([82, 73, 70, 70] ++ u32le (36 + (audio_data.length : Int)) ++
        [87, 65, 86, 69] ++ [102, 109, 116, 32] ++ u32le 16 ++ u16le 1 ++
        u16le 1 ++ u32le (parse_audio_mime_type mime_type).2 ++
        u32le ((parse_audio_mime_type mime_type).2 *
          (1 * Int.fdiv (parse_audio_mime_type mime_type).1 8)) ++
        u16le (1 * Int.fdiv (parse_audio_mime_type mime_type).1 8) ++
        u16le (parse_audio_mime_type mime_type).1 ++ [100, 97, 116, 97] ++
        u32le (audio_data.length : Int) ++ audio_data) := by
    unfold convert_to_wav
    dsimp only
    rw [e1, e2, e3, e4, e5, e6, e7]
  refine ⟨hmain, ?_, by decide⟩
  rw [hmain]
  simp [u32le, u16le]
  omega

/-- C8 (amended) witness: 3 raw bytes with `"audio/L16;rate=24000"` give
a 47-byte container (44-byte header plus the bytes verbatim) whose parsed
parameters are rate 24000 and 16 bits. -/
theorem c8_wav_container_witness :
    (convert_to_wav [1, 2, 3] "audio/L16;rate=24000").map List.length = some 47
    ∧ parse_audio_mime_type "audio/L16;rate=24000" = (16, 24000) := by
  have h := c8_wav_container [1, 2, 3] "audio/L16;rate=24000"
    (by decide) (by decide) (by decide) (by decide) (by decide) (by decide)
    (by decide) (by decide) (by decide)
  exact ⟨h.2.1.trans (by decide), h.2.2⟩
